import Mathlib

/-!
Shallow embedding of the filter/selection pipeline of `src/dash_app.py`
(the `update_scatter` callback and the `load_data` startup loader),
together with theorems checking the specification's claims about it.

A pandas `DataFrame` is modelled as a `Table`: a list of column names
plus a list of rows, each row an association list from column name to
cell value.  Cell values are either numbers (modelled as `ℚ`) or
strings.  Row selection by a boolean condition (`df[mask]`) is modelled
as `List.filter` on the rows; a column lookup `df[c]` on a missing
column, which raises `KeyError` in pandas, is modelled by returning
`Except.error`.  The Dash callback inputs that may be `None` are
modelled as `Option`; Python truthiness of a string-or-None value
(`if not x_col`) is modelled by `truthy`.
-/

namespace PitchingScatter

/-- A cell value of the table: numeric (pandas number dtypes, modelled
as `ℚ`) or text. -/
inductive Value where
  | num (q : ℚ)
  | str (s : String)
deriving DecidableEq, Repr

/-- A row: an association list from column name to cell value.  In a
well-formed table every row has a cell for every column of the table. -/
abbrev Row := List (String × Value)

/-- Look up the cell of row `r` in column `c`. -/
def getCell (r : Row) (c : String) : Option Value :=
  (r.find? (fun p => p.1 == c)).map Prod.snd

/-- An in-memory table: named columns and a list of rows. -/
structure Table where
  cols : List String
  rows : List Row
deriving DecidableEq, Repr

/-- Keep only the rows satisfying `p` (pandas boolean-mask selection
`df[mask]`); the columns are untouched. -/
def filterRows (t : Table) (p : Row → Bool) : Table :=
  { t with rows := t.rows.filter p }

/-- `df[c].isin(vals)` evaluated at one row, for a list of string
values: true iff the row's cell in column `c` is a string belonging to
`vals`.  A numeric cell never equals a string value (as in pandas
`isin` with mismatched types); a missing cell is treated as
non-matching. -/
def isinStr (r : Row) (c : String) (vals : List String) : Bool :=
  match getCell r c with
  | some (Value.str s) => vals.contains s
  | _ => false

/-- `df[df[c].isin(vals)]`: the column lookup `df[c]` raises `KeyError`
when `c` is not a column, otherwise the matching rows are kept. -/
def isinFilter (t : Table) (c : String) (vals : List String) : Except String Table :=
  if t.cols.contains c then
    .ok (filterRows t (fun r => isinStr r c vals))
  else
    .error ("KeyError: " ++ c)

/-- Line 225 of `dash_app.py`:
`filtered_df = df[df["Team"].isin(selected_teams)] if selected_teams else df`. -/
def applyTeamFilter (t : Table) (team_filter : List String) : Except String Table :=
  if team_filter.isEmpty then .ok t
  else isinFilter t "Team" team_filter

/-- Line 228 of `dash_app.py`:
`filtered_df = filtered_df[filtered_df["Name"].isin(selected_players)] if selected_players else filtered_df`. -/
def applyPlayerFilter (t : Table) (player_filter : List String) : Except String Table :=
  if player_filter.isEmpty then .ok t
  else isinFilter t "Name" player_filter

/-- Element-wise comparison test of one cell against the numeric
threshold, for each of the five recognized operators.  The app's
parameter columns are numeric; a non-numeric or missing cell is
modelled as failing the comparison. -/
def valCmp (op : String) (x : Value) (v : ℚ) : Bool :=
  match x with
  | Value.num q =>
      if op == ">" then decide (q > v)
      else if op == ">=" then decide (q ≥ v)
      else if op == "<" then decide (q < v)
      else if op == "<=" then decide (q ≤ v)
      else if op == "=" then decide (q = v)
      else false
  | Value.str _ => false

/-- One row's result of the element-wise comparison
`df[c] <op> v`: the cell in column `c` is compared to `v`. -/
def cellCmp (r : Row) (c : String) (op : String) (v : ℚ) : Bool :=
  match getCell r c with
  | some x => valCmp op x v
  | none => false

/-- `filtered_df[filtered_df[c] <op> v]`: the column lookup raises
`KeyError` when `c` is not a column, otherwise the rows matching the
comparison are kept. -/
def cmpFilter (t : Table) (c : String) (op : String) (v : ℚ) : Except String Table :=
  if t.cols.contains c then
    .ok (filterRows t (fun r => cellCmp r c op v))
  else
    .error ("KeyError: " ++ c)

/-- Python truthiness of an optional string (`if x_col`): `None` and
the empty string are falsy. -/
def truthy : Option String → Bool
  | none => false
  | some s => s != ""

/-- Lines 231-241 of `dash_app.py`: the parameter filter.  Applied only
when `param_col` is truthy and `param_value` is not `None`; the
`if/elif` chain over the five operator strings falls through (no-op)
for any other operator. -/
def applyParamFilter (t : Table) (param_col : Option String) (param_op : String)
    (param_value : Option ℚ) : Except String Table :=
  match param_col, param_value with
  | some c, some v =>
      if c == "" then .ok t
      else if param_op == ">" then cmpFilter t c ">" v
      else if param_op == ">=" then cmpFilter t c ">=" v
      else if param_op == "<" then cmpFilter t c "<" v
      else if param_op == "<=" then cmpFilter t c "<=" v
      else if param_op == "=" then cmpFilter t c "=" v
      else .ok t
  | _, _ => .ok t

/-- Line 245: `default_hover = ["Name"] if "Name" in filtered_df.columns else []`. -/
def defaultHover (t : Table) : List String :=
  if t.cols.contains "Name" then ["Name"] else []

/-- Line 246: `selected_hover = [col for col in (hover_cols or []) if col in filtered_df.columns and col != "Name"]`. -/
def selectedHover (t : Table) (hover_cols : List String) : List String :=
  hover_cols.filter (fun col => t.cols.contains col && col != "Name")

/-- Line 247: `hover_list = default_hover + selected_hover`. -/
def hoverList (t : Table) (hover_cols : List String) : List String :=
  defaultHover t ++ selectedHover t hover_cols

/-- Lines 254-255: `color_col if color_col in filtered_df.columns else
None` (and the same for `size_col`).  `None in columns` is false. -/
def resolveCol (t : Table) (oc : Option String) : Option String :=
  match oc with
  | some c => if t.cols.contains c then some c else none
  | none => none

/-- Line 257: the title f-string
`f"{x_col} vs {y_col} " + (f"| colored by {color_col} |" if color_col else "") + (f"| sized by {size_col} |" if size_col else "")`. -/
def mkTitle (x_col y_col : String) (color_col size_col : Option String) : String :=
  x_col ++ " vs " ++ y_col ++ " " ++
    (if truthy color_col then "| colored by " ++ color_col.getD "" ++ " |" else "") ++
    (if truthy size_col then "| sized by " ++ size_col.getD "" ++ " |" else "")

/-- The plot specification handed to the rendering collaborator
(`px.scatter` call, lines 250-259): axes, resolved color and size,
hover fields (`none` models `hover_data=False`, hover disabled), title,
and the filtered table. -/
structure PlotSpec where
  x : String
  y : String
  color : Option String
  size : Option String
  hoverData : Option (List String)
  title : String
  table : Table
deriving DecidableEq, Repr

/-- The callback result: either the empty-plot placeholder
(line 222: `{"data": [], "layout": {"title": ...}}`) or a plot
specification. -/
inductive ScatterResult where
  | emptyPlot (title : String)
  | plot (spec : PlotSpec)
deriving DecidableEq, Repr

/-- The ten callback inputs of `update_scatter`.  Dash dropdowns supply
`None` when cleared (modelled by `Option`); the multi-select dropdowns
supply lists (a `None` there is normalized away by Python truthiness
and by `hover_cols or []`, so plain lists are used). -/
structure Sel where
  x_col : Option String
  y_col : Option String
  color_col : Option String
  size_col : Option String
  team_filter : List String
  player_filter : List String
  hover_cols : List String
  param_col : Option String
  param_op : String
  param_value : Option ℚ
deriving DecidableEq, Repr

/-- Lines 250-259 of `dash_app.py`: packaging of the `px.scatter`
arguments into the plot specification, given the filtered table `t3`. -/
def mkSpec (s : Sel) (t3 : Table) : PlotSpec :=
  { x := s.x_col.getD ""
    y := s.y_col.getD ""
    color := resolveCol t3 s.color_col
    size := resolveCol t3 s.size_col
    hoverData :=
      if (hoverList t3 s.hover_cols).isEmpty then none
      else some (hoverList t3 s.hover_cols)
    title := mkTitle (s.x_col.getD "") (s.y_col.getD "") s.color_col s.size_col
    table := t3 }

/-- Lines 219-260 of `dash_app.py`: the `update_scatter` callback.
Pandas operations that raise (`KeyError` on a missing column lookup)
are modelled by `Except.error`, which propagates as a Python exception
would. -/
def update_scatter (df : Table) (s : Sel) : Except String ScatterResult :=
  if !truthy s.x_col || !truthy s.y_col then
    .ok (.emptyPlot "Select X and Y columns")
  else
    match applyTeamFilter df s.team_filter with
    | .error e => .error e
    | .ok t1 =>
      match applyPlayerFilter t1 s.player_filter with
      | .error e => .error e
      | .ok t2 =>
        match applyParamFilter t2 s.param_col s.param_op s.param_value with
        | .error e => .error e
        | .ok t3 => .ok (.plot (mkSpec s t3))

/-- Lines 14-18 of `dash_app.py`: `load_data`.  The filesystem is
abstracted by `path_exists` (for `path.exists()`), `resolve` (for
`path.resolve()`, the absolute path) and `read_csv` (for
`pd.read_csv`). -/
def load_data (path_exists : String → Bool) (resolve : String → String)
    (read_csv : String → Table) (path : String) : Except String Table :=
  if !path_exists path then
    .error ("CSV not found: " ++ resolve path)
  else
    .ok (read_csv path)

/-- The application object: holds the loaded table for the process
lifetime (`create_app(df)`). -/
structure App where
  df : Table
deriving DecidableEq, Repr

/-- Line 266-267 of `dash_app.py`: module-level startup,
`df = load_data(CSV_PATH); app = create_app(df)`.  A load failure
propagates, so the app is never constructed. -/
def startup (path_exists : String → Bool) (resolve : String → String)
    (read_csv : String → Table) (path : String) : Except String App :=
  (load_data path_exists resolve read_csv path).map App.mk

/-! Characterization of the three filter stages as pure row
predicates, used to state and prove the claims. -/

/-- The row predicate implemented by the team stage: with an empty
`team_filter` every row is kept, otherwise membership of the row's
Team value. -/
def teamPred (tf : List String) (r : Row) : Bool :=
  tf.isEmpty || isinStr r "Team" tf

/-- The row predicate implemented by the player stage. -/
def playerPred (pf : List String) (r : Row) : Bool :=
  pf.isEmpty || isinStr r "Name" pf

/-- Whether the operator string is one of the five recognized by the
`if/elif` chain of lines 232-241. -/
def recognizedOp (op : String) : Bool :=
  op == ">" || op == ">=" || op == "<" || op == "<=" || op == "="

/-- The row predicate implemented by the parameter stage: trivially
true when the triple is not fully specified or the operator is
unrecognized, otherwise the element-wise comparison. -/
def paramPred (pc : Option String) (op : String) (pv : Option ℚ) (r : Row) : Bool :=
  match pc, pv with
  | some c, some v =>
      if c == "" then true
      else if recognizedOp op then cellCmp r c op v
      else true
  | _, _ => true

/-- The strict-intersection row predicate: conjunction of the team,
player and parameter predicates (the specification's "filters compose
as a strict intersection (logical AND)"). -/
def specRowPred (s : Sel) (r : Row) : Bool :=
  teamPred s.team_filter r &&
    (playerPred s.player_filter r && paramPred s.param_col s.param_op s.param_value r)

/-- Sequential filtering of a table by a list of row predicates, for
stating order-independence of filter composition. -/
def applyPreds (ps : List (Row → Bool)) (t : Table) : Table :=
  ps.foldl (fun acc p => filterRows acc p) t

/-! Supporting lemmas. -/

theorem filterRows_true (t : Table) (p : Row → Bool) (hp : ∀ r, p r = true) :
    filterRows t p = t := by
  unfold filterRows
  have h : t.rows.filter p = t.rows := by
    rw [List.filter_congr (fun r _ => hp r), List.filter_true]
  rw [h]

theorem filterRows_comp (t : Table) (p q : Row → Bool) :
    filterRows (filterRows t p) q = filterRows t (fun r => p r && q r) := by
  unfold filterRows
  simp only [List.filter_filter]
  congr 1
  apply List.filter_congr
  intro r _
  exact Bool.and_comm (q r) (p r)

theorem filterRows_cols (t : Table) (p : Row → Bool) :
    (filterRows t p).cols = t.cols := rfl

theorem applyTeamFilter_ok {df t : Table} {tf : List String}
    (h : applyTeamFilter df tf = .ok t) :
    t = filterRows df (teamPred tf) := by
  unfold applyTeamFilter at h
  split at h
  · rename_i he
    cases h
    refine (filterRows_true df _ ?_).symm
    intro r
    simp [teamPred, he]
  · rename_i he
    rw [Bool.not_eq_true] at he
    unfold isinFilter at h
    split at h
    · cases h
      unfold filterRows
      congr 1
      apply List.filter_congr
      intro r _
      simp [teamPred, he]
    · cases h

theorem applyPlayerFilter_ok {df t : Table} {pf : List String}
    (h : applyPlayerFilter df pf = .ok t) :
    t = filterRows df (playerPred pf) := by
  unfold applyPlayerFilter at h
  split at h
  · rename_i he
    cases h
    refine (filterRows_true df _ ?_).symm
    intro r
    simp [playerPred, he]
  · rename_i he
    rw [Bool.not_eq_true] at he
    unfold isinFilter at h
    split at h
    · cases h
      unfold filterRows
      congr 1
      apply List.filter_congr
      intro r _
      simp [playerPred, he]
    · cases h

theorem cmpFilter_ok {t u : Table} {c op : String} {v : ℚ}
    (h : cmpFilter t c op v = .ok u) :
    u = filterRows t (fun r => cellCmp r c op v) := by
  unfold cmpFilter at h
  split at h
  · cases h
    rfl
  · cases h

theorem cmpFilter_ok_contains {t u : Table} {c op : String} {v : ℚ}
    (h : cmpFilter t c op v = .ok u) :
    t.cols.contains c = true := by
  unfold cmpFilter at h
  split at h
  · assumption
  · cases h

theorem applyParamFilter_ok {t u : Table} {pc : Option String} {op : String} {pv : Option ℚ}
    (h : applyParamFilter t pc op pv = .ok u) :
    u = filterRows t (paramPred pc op pv) := by
  rcases pc with _ | c
  · unfold applyParamFilter at h
    dsimp only at h
    cases h
    exact (filterRows_true t _ (fun r => rfl)).symm
  · rcases pv with _ | v
    · unfold applyParamFilter at h
      dsimp only at h
      cases h
      exact (filterRows_true t _ (fun r => rfl)).symm
    · unfold applyParamFilter at h
      dsimp only at h
      split at h
      · rename_i hce
        cases h
        refine (filterRows_true t _ ?_).symm
        intro r
        simp [paramPred, hce]
      · rename_i hce
        rw [Bool.not_eq_true] at hce
        split at h
        · rename_i h1
          have hop : recognizedOp op = true := by simp [recognizedOp, h1]
          rw [cmpFilter_ok h]
          unfold filterRows
          congr 1
          apply List.filter_congr
          intro r _
          simp [paramPred, hce, hop]
          rw [eq_of_beq h1]
        · rename_i h1
          rw [Bool.not_eq_true] at h1
          split at h
          · rename_i h2
            have hop : recognizedOp op = true := by simp [recognizedOp, h2]
            rw [cmpFilter_ok h]
            unfold filterRows
            congr 1
            apply List.filter_congr
            intro r _
            simp [paramPred, hce, hop]
            rw [eq_of_beq h2]
          · rename_i h2
            rw [Bool.not_eq_true] at h2
            split at h
            · rename_i h3
              have hop : recognizedOp op = true := by simp [recognizedOp, h3]
              rw [cmpFilter_ok h]
              unfold filterRows
              congr 1
              apply List.filter_congr
              intro r _
              simp [paramPred, hce, hop]
              rw [eq_of_beq h3]
            · rename_i h3
              rw [Bool.not_eq_true] at h3
              split at h
              · rename_i h4
                have hop : recognizedOp op = true := by simp [recognizedOp, h4]
                rw [cmpFilter_ok h]
                unfold filterRows
                congr 1
                apply List.filter_congr
                intro r _
                simp [paramPred, hce, hop]
                rw [eq_of_beq h4]
              · rename_i h4
                rw [Bool.not_eq_true] at h4
                split at h
                · rename_i h5
                  have hop : recognizedOp op = true := by simp [recognizedOp, h5]
                  rw [cmpFilter_ok h]
                  unfold filterRows
                  congr 1
                  apply List.filter_congr
                  intro r _
                  simp [paramPred, hce, hop]
                  rw [eq_of_beq h5]
                · rename_i h5
                  rw [Bool.not_eq_true] at h5
                  cases h
                  refine (filterRows_true t _ ?_).symm
                  intro r
                  have hop : recognizedOp op = false := by
                    simp [recognizedOp, h1, h2, h3, h4, h5]
                  simp [paramPred, hce, hop]

theorem update_scatter_ok_plot {df : Table} {s : Sel} {spec : PlotSpec}
    (h : update_scatter df s = .ok (.plot spec)) :
    truthy s.x_col = true ∧ truthy s.y_col = true ∧
    ∃ t1 t2 t3,
      applyTeamFilter df s.team_filter = .ok t1 ∧
      applyPlayerFilter t1 s.player_filter = .ok t2 ∧
      applyParamFilter t2 s.param_col s.param_op s.param_value = .ok t3 ∧
      spec = mkSpec s t3 := by
  unfold update_scatter at h
  by_cases hx : truthy s.x_col = true
  · by_cases hy : truthy s.y_col = true
    · simp only [hx, hy, Bool.not_true, Bool.or_self, Bool.false_eq_true, if_false] at h
      cases h1 : applyTeamFilter df s.team_filter with
      | error e => rw [h1] at h; dsimp only at h; cases h
      | ok t1 =>
        rw [h1] at h; dsimp only at h
        cases h2 : applyPlayerFilter t1 s.player_filter with
        | error e => rw [h2] at h; dsimp only at h; cases h
        | ok t2 =>
          rw [h2] at h; dsimp only at h
          cases h3 : applyParamFilter t2 s.param_col s.param_op s.param_value with
          | error e => rw [h3] at h; dsimp only at h; cases h
          | ok t3 =>
            rw [h3] at h; dsimp only at h
            refine ⟨hx, hy, t1, t2, t3, rfl, h2, h3, ?_⟩
            cases h
            rfl
    · rw [Bool.not_eq_true] at hy
      simp only [hy] at h
      simp at h
  · rw [Bool.not_eq_true] at hx
    simp only [hx] at h
    simp at h

theorem update_scatter_ok_of_stages {df : Table} {s : Sel} {t1 t2 t3 : Table}
    (hx : truthy s.x_col = true) (hy : truthy s.y_col = true)
    (h1 : applyTeamFilter df s.team_filter = .ok t1)
    (h2 : applyPlayerFilter t1 s.player_filter = .ok t2)
    (h3 : applyParamFilter t2 s.param_col s.param_op s.param_value = .ok t3) :
    update_scatter df s = .ok (.plot (mkSpec s t3)) := by
  unfold update_scatter
  simp only [hx, hy, Bool.not_true, Bool.or_self, Bool.false_eq_true, if_false, h1, h2, h3]

theorem applyPreds_cons (p : Row → Bool) (ps : List (Row → Bool)) (t : Table) :
    applyPreds (p :: ps) t = applyPreds ps (filterRows t p) := rfl

theorem applyPreds_eq_filterAll (ps : List (Row → Bool)) (t : Table) :
    applyPreds ps t = filterRows t (fun r => ps.all (fun p => p r)) := by
  induction ps generalizing t with
  | nil => exact (filterRows_true t _ (fun r => rfl)).symm
  | cons p ps ih =>
    rw [applyPreds_cons, ih, filterRows_comp]
    unfold filterRows
    congr 1

theorem all_perm_eq {l l2 : List (Row → Bool)} (hp : l.Perm l2) (r : Row) :
    l.all (fun p => p r) = l2.all (fun p => p r) := by
  induction hp with
  | nil => rfl
  | cons x _ ih => simp only [List.all_cons, ih]
  | swap x y l =>
    simp only [List.all_cons]
    exact Bool.and_left_comm _ _ _
  | trans _ _ ih1 ih2 => rw [ih1, ih2]

theorem applyPreds_perm {l l2 : List (Row → Bool)} (hp : l.Perm l2) (t : Table) :
    applyPreds l t = applyPreds l2 t := by
  rw [applyPreds_eq_filterAll, applyPreds_eq_filterAll]
  unfold filterRows
  congr 1
  apply List.filter_congr
  intro r _
  exact all_perm_eq hp r

theorem update_scatter_table_char {df : Table} {s : Sel} {spec : PlotSpec}
    (h : update_scatter df s = .ok (.plot spec)) :
    spec.table = filterRows df (specRowPred s) := by
  obtain ⟨hx, hy, t1, t2, t3, h1, h2, h3, hs⟩ := update_scatter_ok_plot h
  rw [hs]
  show t3 = filterRows df (specRowPred s)
  have e3 := applyParamFilter_ok h3
  have e2 := applyPlayerFilter_ok h2
  have e1 := applyTeamFilter_ok h1
  subst e3
  subst e2
  subst e1
  rw [filterRows_comp, filterRows_comp]
  rfl

theorem update_scatter_cols_char {df : Table} {s : Sel} {spec : PlotSpec}
    (h : update_scatter df s = .ok (.plot spec)) :
    spec.table.cols = df.cols := by
  rw [update_scatter_table_char h]
  rfl

/-! Concrete test data: the specification's §8 example table, with
integral statistic values so the kernel can evaluate cheaply. -/

def rowA : Row := [("Name", Value.str "A"), ("Team", Value.str "X"), ("ERA", Value.num 3)]

def rowB : Row := [("Name", Value.str "B"), ("Team", Value.str "Y"), ("ERA", Value.num 5)]

def testTable : Table := { cols := ["Name", "Team", "ERA"], rows := [rowA, rowB] }

def selC1 : Sel :=
  { x_col := some "ERA", y_col := some "ERA", color_col := none, size_col := none
    team_filter := ["Y"], player_filter := ["B"], hover_cols := []
    param_col := some "ERA", param_op := ">", param_value := some 4 }

def outC1 : PlotSpec :=
  { x := "ERA", y := "ERA", color := none, size := none
    hoverData := some ["Name"], title := "ERA vs ERA "
    table := { cols := ["Name", "Team", "ERA"], rows := [rowB] } }

/-! The claims. -/

/-- C1: when the callback succeeds with a plot (so `x_col` and `y_col`
are set), the filtered table passed to rendering is exactly the source
rows satisfying the strict intersection (logical AND) of the team,
player and parameter predicates; consequently, for non-empty
`team_filter` every output row's Team value is a member of
`team_filter`, for non-empty `player_filter` every output row's Name
value is a member of `player_filter`, and for a fully specified
parameter triple with a recognized operator every output row satisfies
the element-wise comparison against `param_value`; for empty
`team_filter`, the team stage excludes no row. -/
theorem update_scatter_filter_soundness (df : Table) (s : Sel) (spec : PlotSpec)
    (h : update_scatter df s = .ok (.plot spec)) :
    spec.table.rows = df.rows.filter (specRowPred s) ∧
    (s.team_filter ≠ [] → ∀ r ∈ spec.table.rows, isinStr r "Team" s.team_filter = true) ∧
    (s.player_filter ≠ [] → ∀ r ∈ spec.table.rows, isinStr r "Name" s.player_filter = true) ∧
    (∀ c v, s.param_col = some c → c ≠ "" → s.param_value = some v →
      recognizedOp s.param_op = true →
      ∀ r ∈ spec.table.rows, cellCmp r c s.param_op v = true) ∧
    (s.team_filter = [] → applyTeamFilter df s.team_filter = .ok df) := by
  have hchar := update_scatter_table_char h
  have hmem : ∀ r ∈ spec.table.rows, specRowPred s r = true := by
    intro r hr
    rw [hchar] at hr
    exact (List.mem_filter.mp hr).2
  refine ⟨by rw [hchar]; rfl, ?_, ?_, ?_, ?_⟩
  · intro hne r hr
    have hs := hmem r hr
    unfold specRowPred teamPred at hs
    have hemp : s.team_filter.isEmpty = false := by
      cases hl : s.team_filter with
      | nil => exact absurd hl hne
      | cons a l => rfl
    simp only [hemp, Bool.false_or, Bool.and_eq_true] at hs
    exact hs.1
  · intro hne r hr
    have hs := hmem r hr
    unfold specRowPred playerPred at hs
    have hemp : s.player_filter.isEmpty = false := by
      cases hl : s.player_filter with
      | nil => exact absurd hl hne
      | cons a l => rfl
    simp only [hemp, Bool.false_or, Bool.and_eq_true] at hs
    exact hs.2.1
  · intro c v hc hcne hv hop r hr
    have hs := hmem r hr
    unfold specRowPred at hs
    simp only [Bool.and_eq_true] at hs
    have hp := hs.2.2
    unfold paramPred at hp
    rw [hc, hv] at hp
    have hbe : (c == "") = false := by
      simp [hcne]
    dsimp only at hp
    rw [hbe] at hp
    simp only [Bool.false_eq_true, if_false, hop, if_true] at hp
    exact hp
  · intro he
    unfold applyTeamFilter
    simp [he]

/-- Witness for C1: at the example table with `team_filter = ["Y"]`,
`player_filter = ["B"]` and parameter filter ERA > 4, the surviving
row B satisfies both the team membership and the comparison. -/
theorem update_scatter_filter_soundness_witness :
    isinStr rowB "Team" ["Y"] = true ∧ cellCmp rowB "ERA" ">" 4 = true := by
  have H := update_scatter_filter_soundness testTable selC1 outC1 (by rfl)
  refine ⟨H.2.1 (by decide) rowB (by decide), ?_⟩
  exact H.2.2.2.1 "ERA" 4 rfl (by decide) rfl (by decide) rowB (by decide)

/-- C2: if `x_col` or `y_col` is unset (None or the empty string), the
callback returns exactly the empty-plot placeholder with title
"Select X and Y columns", regardless of every other input; no
filtering or column validation happens (so no error is possible). -/
theorem update_scatter_short_circuit (df : Table) (s : Sel)
    (h : truthy s.x_col = false ∨ truthy s.y_col = false) :
    update_scatter df s = .ok (.emptyPlot "Select X and Y columns") := by
  unfold update_scatter
  rcases h with h | h <;> simp [h]

/-- Witness for C2: with `x_col` unset and every other input set to
values that would otherwise error or filter, the placeholder is
returned. -/
theorem update_scatter_short_circuit_witness :
    update_scatter testTable
      { x_col := none, y_col := some "ERA", color_col := some "Nope", size_col := some "Nope"
        team_filter := ["Z"], player_filter := ["Q"], hover_cols := ["Nope"]
        param_col := some "Nope", param_op := "?", param_value := some 1 }
      = .ok (.emptyPlot "Select X and Y columns") :=
  update_scatter_short_circuit testTable _ (Or.inl rfl)

/-- C3 counterexample: an unresolved `param_col` together with a
recognized operator and a non-null `param_value` raises a KeyError
from the pipeline (line 233 of `dash_app.py` looks the column up
without checking membership), instead of being silently ignored. -/
theorem update_scatter_param_col_raises :
    update_scatter testTable
      { x_col := some "ERA", y_col := some "ERA", color_col := none, size_col := none
        team_filter := [], player_filter := [], hover_cols := []
        param_col := some "Nope", param_op := ">", param_value := some 1 }
      = .error "KeyError: Nope" := by rfl

/-- C3 (amended): unresolved `color_col`, `size_col` and hover columns
never raise an error: an unresolved color or size selection is
downgraded to unset, an unresolved hover column is dropped from the
hover list, and none of the three can turn a successful evaluation
into a failure; the parameter filter's `param_col` is the exception
(see the counterexample). -/
theorem update_scatter_degraded_selections (df : Table) (s : Sel) (spec : PlotSpec)
    (h : update_scatter df s = .ok (.plot spec)) :
    (∀ c, s.color_col = some c → spec.table.cols.contains c = false → spec.color = none) ∧
    (∀ c, s.size_col = some c → spec.table.cols.contains c = false → spec.size = none) ∧
    (∀ c, spec.table.cols.contains c = false →
      ∀ hl, spec.hoverData = some hl → c ∉ hl) ∧
    (∀ c2 sz2 hc2, ∃ spec2,
      update_scatter df { s with color_col := c2, size_col := sz2, hover_cols := hc2 }
        = .ok (.plot spec2)) := by
  obtain ⟨hx, hy, t1, t2, t3, h1, h2, h3, hs⟩ := update_scatter_ok_plot h
  subst hs
  refine ⟨?_, ?_, ?_, ?_⟩
  · intro c hc hnc
    have hnc2 : t3.cols.contains c = false := hnc
    show resolveCol t3 s.color_col = none
    rw [hc]
    unfold resolveCol
    dsimp only
    rw [hnc2]
    rfl
  · intro c hc hnc
    have hnc2 : t3.cols.contains c = false := hnc
    show resolveCol t3 s.size_col = none
    rw [hc]
    unfold resolveCol
    dsimp only
    rw [hnc2]
    rfl
  · intro c hnc hl hhl
    have hnc2 : t3.cols.contains c = false := hnc
    have hhl2 : (if (hoverList t3 s.hover_cols).isEmpty then none
        else some (hoverList t3 s.hover_cols)) = some hl := hhl
    intro hmem
    split at hhl2
    · cases hhl2
    · cases hhl2
      unfold hoverList defaultHover selectedHover at hmem
      rw [List.mem_append] at hmem
      rcases hmem with hm | hm
      · split at hm
        · rename_i hname
          rw [List.mem_singleton] at hm
          subst hm
          rw [hname] at hnc2
          cases hnc2
        · cases hm
      · rw [List.mem_filter] at hm
        have hmm := hm.2
        rw [hnc2] at hmm
        simp at hmm
  · intro c2 sz2 hc2
    exact ⟨_, update_scatter_ok_of_stages hx hy h1 h2 h3⟩

def selC3 : Sel :=
  { x_col := some "ERA", y_col := some "ERA", color_col := some "Nope", size_col := some "Nope"
    team_filter := [], player_filter := [], hover_cols := ["Nope", "ERA", "ERA"]
    param_col := none, param_op := ">", param_value := none }

def outC3 : PlotSpec :=
  { x := "ERA", y := "ERA", color := none, size := none
    hoverData := some ["Name", "ERA", "ERA"]
    title := "ERA vs ERA | colored by Nope || sized by Nope |"
    table := testTable }

/-- Witness for C3 (amended): at the example table with unresolved
color and size selections and an unresolved hover column, color and
size are unset and the bad hover column does not appear. -/
theorem update_scatter_degraded_selections_witness :
    outC3.color = none ∧ outC3.size = none ∧ "Nope" ∉ ["Name", "ERA", "ERA"] := by
  have H := update_scatter_degraded_selections testTable selC3 outC3 (by rfl)
  exact ⟨H.1 "Nope" rfl (by decide), H.2.1 "Nope" rfl (by decide),
    H.2.2.1 "Nope" (by decide) ["Name", "ERA", "ERA"] (by rfl)⟩

/-- C4: with `param_col` set, `param_value` non-null and an operator
string outside the five recognized ones, the parameter stage is a
silent no-op (it returns any input table unchanged and raises no
error), and the pipeline completes normally on the output of the team
and player stages. -/
theorem update_scatter_unrecognized_op (df : Table) (s : Sel) (c : String) (v : ℚ)
    (hc : s.param_col = some c) (hv : s.param_value = some v)
    (hop : recognizedOp s.param_op = false) :
    (∀ t : Table, applyParamFilter t s.param_col s.param_op s.param_value = .ok t) ∧
    (∀ t1 t2 : Table, truthy s.x_col = true → truthy s.y_col = true →
      applyTeamFilter df s.team_filter = .ok t1 →
      applyPlayerFilter t1 s.player_filter = .ok t2 →
      update_scatter df s = .ok (.plot (mkSpec s t2))) := by
  have hops : (s.param_op == ">") = false ∧ (s.param_op == ">=") = false ∧
      (s.param_op == "<") = false ∧ (s.param_op == "<=") = false ∧
      (s.param_op == "=") = false := by
    unfold recognizedOp at hop
    simp only [Bool.or_eq_false_iff] at hop
    exact ⟨hop.1.1.1.1, hop.1.1.1.2, hop.1.1.2, hop.1.2, hop.2⟩
  obtain ⟨o1, o2, o3, o4, o5⟩ := hops
  have hnoop : ∀ t : Table, applyParamFilter t s.param_col s.param_op s.param_value = .ok t := by
    intro t
    rw [hc, hv]
    unfold applyParamFilter
    dsimp only
    rw [o1, o2, o3, o4, o5]
    simp
  refine ⟨hnoop, ?_⟩
  intro t1 t2 hx hy h1 h2
  exact update_scatter_ok_of_stages hx hy h1 h2 (hnoop t2)

def selC4 : Sel :=
  { x_col := some "ERA", y_col := some "ERA", color_col := none, size_col := none
    team_filter := [], player_filter := [], hover_cols := []
    param_col := some "ERA", param_op := "!=", param_value := some 1 }

/-- Witness for C4: the operator "!=" leaves the example table
untouched and the pipeline still renders. -/
theorem update_scatter_unrecognized_op_witness :
    applyParamFilter testTable (some "ERA") "!=" (some 1) = .ok testTable ∧
    update_scatter testTable selC4 = .ok (.plot (mkSpec selC4 testTable)) := by
  have H := update_scatter_unrecognized_op testTable selC4 "ERA" 1 rfl rfl (by decide)
  exact ⟨H.1 testTable, H.2 testTable testTable rfl rfl (by rfl) (by rfl)⟩

/-- C5: the hover-field list starts with "Name" exactly when "Name" is
a column of the table, followed by the user-selected hover columns
that exist in the table and are not "Name", in selection order and
with duplicates preserved; "Name" occurs at most once; and an empty
hover list disables hover display (`hoverData = none`) instead of
being shown empty. -/
theorem update_scatter_hover (df : Table) (s : Sel) (spec : PlotSpec)
    (h : update_scatter df s = .ok (.plot spec)) :
    (spec.table.cols.contains "Name" = true →
      hoverList spec.table s.hover_cols
        = "Name" :: s.hover_cols.filter
            (fun col => spec.table.cols.contains col && col != "Name")) ∧
    (spec.table.cols.contains "Name" = false →
      hoverList spec.table s.hover_cols
        = s.hover_cols.filter
            (fun col => spec.table.cols.contains col && col != "Name")) ∧
    (hoverList spec.table s.hover_cols).count "Name" ≤ 1 ∧
    spec.hoverData = (if (hoverList spec.table s.hover_cols).isEmpty then none
      else some (hoverList spec.table s.hover_cols)) := by
  obtain ⟨hx, hy, t1, t2, t3, h1, h2, h3, hs⟩ := update_scatter_ok_plot h
  subst hs
  have hsel : (selectedHover t3 s.hover_cols).count "Name" = 0 := by
    rw [List.count_eq_zero]
    intro hm
    unfold selectedHover at hm
    rw [List.mem_filter] at hm
    have hmm := hm.2
    simp at hmm
  refine ⟨?_, ?_, ?_, rfl⟩
  · intro hn
    have hn2 : t3.cols.contains "Name" = true := hn
    show hoverList t3 s.hover_cols = _
    unfold hoverList defaultHover
    rw [hn2]
    rfl
  · intro hn
    have hn2 : t3.cols.contains "Name" = false := hn
    show hoverList t3 s.hover_cols = _
    unfold hoverList defaultHover
    rw [hn2]
    rfl
  · show (hoverList t3 s.hover_cols).count "Name" ≤ 1
    unfold hoverList
    rw [List.count_append, hsel]
    unfold defaultHover
    split
    · simp
    · simp

def selC5 : Sel :=
  { x_col := some "ERA", y_col := some "ERA", color_col := none, size_col := none
    team_filter := [], player_filter := [], hover_cols := ["ERA", "Team", "ERA", "Name"]
    param_col := none, param_op := ">", param_value := none }

def outC5 : PlotSpec :=
  { x := "ERA", y := "ERA", color := none, size := none
    hoverData := some ["Name", "ERA", "Team", "ERA"]
    title := "ERA vs ERA "
    table := testTable }

/-- Witness for C5: with hover selection ["ERA", "Team", "ERA",
"Name"], the list is "Name" first, then the duplicates preserved, the
extra "Name" dropped, and "Name" occurs once. -/
theorem update_scatter_hover_witness :
    hoverList outC5.table selC5.hover_cols = ["Name", "ERA", "Team", "ERA"] ∧
    (hoverList outC5.table selC5.hover_cols).count "Name" ≤ 1 := by
  have H := update_scatter_hover testTable selC5 outC5 (by rfl)
  exact ⟨(H.1 (by decide)).trans (by decide), H.2.2.1⟩

/-- C6: filter composition is order-independent: applying any
permutation of the three implemented row predicates (team, player,
parameter) to the source table yields the same table as the
implemented order, and the implemented order is exactly what the
pipeline's filtered table equals. -/
theorem filter_order_independence (df : Table) (s : Sel) (spec : PlotSpec)
    (l : List (Row → Bool))
    (h : update_scatter df s = .ok (.plot spec))
    (hperm : l.Perm [teamPred s.team_filter, playerPred s.player_filter,
      paramPred s.param_col s.param_op s.param_value]) :
    applyPreds l df
      = applyPreds [teamPred s.team_filter, playerPred s.player_filter,
          paramPred s.param_col s.param_op s.param_value] df ∧
    spec.table
      = applyPreds [teamPred s.team_filter, playerPred s.player_filter,
          paramPred s.param_col s.param_op s.param_value] df := by
  constructor
  · exact applyPreds_perm hperm df
  · rw [update_scatter_table_char h, applyPreds_eq_filterAll]
    unfold filterRows
    congr 1
    apply List.filter_congr
    intro r _
    unfold specRowPred
    simp [List.all_cons]

/-- Witness for C6: swapping the team and player stages on the example
table yields the same result, equal to the pipeline's filtered
table. -/
theorem filter_order_independence_witness :
    applyPreds [playerPred ["B"], teamPred ["Y"],
        paramPred (some "ERA") ">" (some 4)] testTable
      = applyPreds [teamPred ["Y"], playerPred ["B"],
          paramPred (some "ERA") ">" (some 4)] testTable ∧
    outC1.table
      = applyPreds [teamPred ["Y"], playerPred ["B"],
          paramPred (some "ERA") ">" (some 4)] testTable :=
  filter_order_independence testTable selC1 outC1 _ (by rfl) (List.Perm.swap _ _ _)

/-- C7: the pipeline is deterministic: two evaluations on the same
source table with identical selections produce equal results, hence in
particular identical filtered tables, hover lists and titles.  (The
embedding is a pure function of the table and the selections; the
source table is never modified, each stage building a new value.) -/
theorem update_scatter_deterministic (df : Table) (s : Sel)
    (r1 r2 : Except String ScatterResult)
    (h1 : update_scatter df s = r1) (h2 : update_scatter df s = r2) :
    r1 = r2 ∧
    ∀ spec1 spec2, r1 = .ok (.plot spec1) → r2 = .ok (.plot spec2) →
      spec1.table = spec2.table ∧ spec1.hoverData = spec2.hoverData ∧
        spec1.title = spec2.title := by
  subst h1
  subst h2
  refine ⟨rfl, ?_⟩
  intro s1 s2 e1 e2
  rw [e1] at e2
  cases e2
  exact ⟨rfl, rfl, rfl⟩

/-- Witness for C7 at the example table and selection. -/
theorem update_scatter_deterministic_witness :
    (Except.ok (ScatterResult.plot outC1) : Except String ScatterResult)
      = update_scatter testTable selC1 :=
  (update_scatter_deterministic testTable selC1
    (.ok (.plot outC1)) (update_scatter testTable selC1) (by rfl) rfl).1

/-- C8: when the path does not exist, loading fails with a
NotFound-style error whose message contains the resolved (absolute)
path, and startup propagates the failure so the app is never
constructed; when the path exists, loading returns the table read from
the CSV. -/
theorem load_data_spec (path_exists : String → Bool) (resolve : String → String)
    (read_csv : String → Table) (path : String) :
    (path_exists path = false →
      load_data path_exists resolve read_csv path
        = .error ("CSV not found: " ++ resolve path) ∧
      (∃ pre, "CSV not found: " ++ resolve path = pre ++ resolve path) ∧
      startup path_exists resolve read_csv path
        = .error ("CSV not found: " ++ resolve path)) ∧
    (path_exists path = true →
      load_data path_exists resolve read_csv path = .ok (read_csv path) ∧
      startup path_exists resolve read_csv path = .ok (App.mk (read_csv path))) := by
  constructor
  · intro hne
    refine ⟨?_, ⟨"CSV not found: ", rfl⟩, ?_⟩
    · unfold load_data
      rw [hne]
      rfl
    · unfold startup load_data
      rw [hne]
      rfl
  · intro he
    constructor
    · unfold load_data
      rw [he]
      rfl
    · unfold startup load_data
      rw [he]
      rfl

def fsExists : String → Bool := fun p => p == "pitching_advanced_20IPmin.csv"

def fsResolve : String → String := fun p => "/app/" ++ p

def fsRead : String → Table := fun _ => testTable

/-- Witness for C8 on a two-file model of the filesystem. -/
theorem load_data_spec_witness :
    load_data fsExists fsResolve fsRead "missing.csv"
      = .error ("CSV not found: " ++ fsResolve "missing.csv") ∧
    load_data fsExists fsResolve fsRead "pitching_advanced_20IPmin.csv"
      = .ok (fsRead "pitching_advanced_20IPmin.csv") := by
  have H1 := load_data_spec fsExists fsResolve fsRead "missing.csv"
  have H2 := load_data_spec fsExists fsResolve fsRead "pitching_advanced_20IPmin.csv"
  exact ⟨(H1.1 (by decide)).1, (H2.2 (by decide)).1⟩

/-- The string `sub` occurs contiguously inside `t`. -/
def mentionsStr (t sub : String) : Prop := ∃ a b, t = a ++ (sub ++ b)

theorem mkTitle_decomp (x y : String) (co si : Option String) :
    mkTitle x y co si
      = x ++ (" vs " ++ (y ++ (" " ++
          ((if truthy co then "| colored by " ++ co.getD "" ++ " |" else "") ++
           (if truthy si then "| sized by " ++ si.getD "" ++ " |" else ""))))) := by
  unfold mkTitle
  simp [String.append_assoc]

/-- C9: the produced plot specification carries the x and y columns,
the resolved color and size (set exactly when the named column exists
in the filtered table, in particular unset with no error for a column
not in the table), and the hover-field list; the title names the x and
y columns, and names the color (resp. size) dimension whenever a
non-empty color (resp. size) column is selected — in particular
whenever that dimension is present in the spec. -/
theorem update_scatter_plot_fields (df : Table) (s : Sel) (spec : PlotSpec)
    (h : update_scatter df s = .ok (.plot spec)) :
    spec.x = s.x_col.getD "" ∧ spec.y = s.y_col.getD "" ∧
    spec.color = resolveCol spec.table s.color_col ∧
    spec.size = resolveCol spec.table s.size_col ∧
    (∀ c, s.color_col = some c →
      spec.color = (if spec.table.cols.contains c then some c else none)) ∧
    (∀ c, s.size_col = some c →
      spec.size = (if spec.table.cols.contains c then some c else none)) ∧
    (∀ c, s.color_col = some c → spec.table.cols.contains c = false →
      spec.color = none) ∧
    spec.hoverData = (if (hoverList spec.table s.hover_cols).isEmpty then none
      else some (hoverList spec.table s.hover_cols)) ∧
    mentionsStr spec.title (s.x_col.getD "") ∧
    mentionsStr spec.title (s.y_col.getD "") ∧
    (∀ c, s.color_col = some c → c ≠ "" →
      mentionsStr spec.title ("colored by " ++ c)) ∧
    (∀ c, s.size_col = some c → c ≠ "" →
      mentionsStr spec.title ("sized by " ++ c)) := by
  obtain ⟨hx, hy, t1, t2, t3, h1, h2, h3, hs⟩ := update_scatter_ok_plot h
  subst hs
  refine ⟨rfl, rfl, rfl, rfl, ?_, ?_, ?_, rfl, ?_, ?_, ?_, ?_⟩
  · intro c hc
    show resolveCol t3 s.color_col = _
    rw [hc]
    unfold resolveCol
    dsimp only
    rfl
  · intro c hc
    show resolveCol t3 s.size_col = _
    rw [hc]
    unfold resolveCol
    dsimp only
    rfl
  · intro c hc hnc
    have hnc2 : t3.cols.contains c = false := hnc
    show resolveCol t3 s.color_col = none
    rw [hc]
    unfold resolveCol
    dsimp only
    rw [hnc2]
    rfl
  · refine ⟨"", " vs " ++ ((s.y_col.getD "") ++ (" " ++
      ((if truthy s.color_col then "| colored by " ++ (s.color_col.getD "") ++ " |" else "") ++
       (if truthy s.size_col then "| sized by " ++ (s.size_col.getD "") ++ " |" else "")))), ?_⟩
    rw [String.empty_append]
    exact mkTitle_decomp _ _ _ _
  · refine ⟨(s.x_col.getD "") ++ " vs ", " " ++
      ((if truthy s.color_col then "| colored by " ++ (s.color_col.getD "") ++ " |" else "") ++
       (if truthy s.size_col then "| sized by " ++ (s.size_col.getD "") ++ " |" else "")), ?_⟩
    exact (mkTitle_decomp _ _ _ _).trans (String.append_assoc _ _ _).symm
  · intro c hc hcne
    refine ⟨(s.x_col.getD "") ++ (" vs " ++ ((s.y_col.getD "") ++ (" " ++ "| "))),
      " |" ++ (if truthy s.size_col then "| sized by " ++ (s.size_col.getD "") ++ " |" else ""),
      ?_⟩
    show mkTitle (s.x_col.getD "") (s.y_col.getD "") s.color_col s.size_col = _
    rw [mkTitle_decomp, hc]
    have htr : truthy (some c) = true := by simp [truthy, hcne]
    rw [htr]
    simp only [Option.getD, eq_self_iff_true, if_true]
    simp only [String.append_assoc]
    rfl
  · intro c hc hcne
    refine ⟨(s.x_col.getD "") ++ (" vs " ++ ((s.y_col.getD "") ++ (" " ++
      ((if truthy s.color_col then "| colored by " ++ (s.color_col.getD "") ++ " |" else "")
        ++ "| ")))),
      " |", ?_⟩
    show mkTitle (s.x_col.getD "") (s.y_col.getD "") s.color_col s.size_col = _
    rw [mkTitle_decomp, hc]
    have htr : truthy (some c) = true := by simp [truthy, hcne]
    rw [htr]
    simp only [Option.getD, eq_self_iff_true, if_true]
    simp only [String.append_assoc]
    rfl

def selC9 : Sel :=
  { x_col := some "ERA", y_col := some "ERA", color_col := some "Team", size_col := some "ERA"
    team_filter := [], player_filter := [], hover_cols := []
    param_col := none, param_op := ">", param_value := none }

def outC9 : PlotSpec :=
  { x := "ERA", y := "ERA", color := some "Team", size := some "ERA"
    hoverData := some ["Name"]
    title := "ERA vs ERA | colored by Team || sized by ERA |"
    table := testTable }

/-- Witness for C9: with color "Team" and size "ERA" both present, the
spec carries them resolved. -/
theorem update_scatter_plot_fields_witness :
    outC9.x = "ERA" ∧ outC9.color = some "Team" ∧ outC9.size = some "ERA" ∧
    mentionsStr outC9.title ("colored by " ++ "Team") := by
  have H := update_scatter_plot_fields testTable selC9 outC9 (by rfl)
  refine ⟨H.1.trans (by rfl), ?_, ?_, ?_⟩
  · exact (H.2.2.2.2.1 "Team" rfl).trans (by decide)
  · exact (H.2.2.2.2.2.1 "ERA" rfl).trans (by decide)
  · exact H.2.2.2.2.2.2.2.2.2.2.1 "Team" rfl (by decide)

/-- C10: every filtering stage removes whole rows only: after each of
the team, player and parameter stages the rows are an order-preserving
subsequence of the source rows, the column list is unchanged, and
column-membership checks against the filtered table agree with the
source table. -/
theorem filter_stages_preserve (df : Table) (s : Sel) (t1 t2 t3 : Table)
    (h1 : applyTeamFilter df s.team_filter = .ok t1)
    (h2 : applyPlayerFilter t1 s.player_filter = .ok t2)
    (h3 : applyParamFilter t2 s.param_col s.param_op s.param_value = .ok t3) :
    (List.Sublist t1.rows df.rows ∧ t1.cols = df.cols) ∧
    (List.Sublist t2.rows df.rows ∧ t2.cols = df.cols) ∧
    (List.Sublist t3.rows df.rows ∧ t3.cols = df.cols) ∧
    (∀ c, t3.cols.contains c = df.cols.contains c) := by
  have e1 := applyTeamFilter_ok h1
  have e2 := applyPlayerFilter_ok h2
  have e3 := applyParamFilter_ok h3
  subst e3
  subst e2
  subst e1
  refine ⟨⟨List.filter_sublist _, rfl⟩,
    ⟨(List.filter_sublist _).trans (List.filter_sublist _), rfl⟩,
    ⟨((List.filter_sublist _).trans (List.filter_sublist _)).trans
      (List.filter_sublist _), rfl⟩,
    fun c => rfl⟩

/-- Witness for C10 at the example table with the C1 selection. -/
theorem filter_stages_preserve_witness :
    List.Sublist outC1.table.rows testTable.rows ∧
    outC1.table.cols = testTable.cols := by
  have H := filter_stages_preserve testTable selC1
    outC1.table outC1.table outC1.table (by rfl) (by rfl) (by rfl)
  exact H.2.2.1

end PitchingScatter
